import Mathlib

/-!
Shallow embedding of the HealthLink `python_agent` pipeline
(`src/middleware-api/python_agent/agent_graph.py` and `run_agent.py`).

Modelling conventions:
* Python/JSON values are the inductive `Json` (numbers keep their source
  lexeme; none of the verified properties inspects numeric magnitude).
* Python `dict`s coming from JSON are association lists without duplicate
  keys; `dictSet` mirrors `d[k] = v` (replace in place, else append) and
  `dictGet`/`dictGetD` mirror `d[k]` / `d.get(k, default)`.
* Exceptions are modelled with `Except String`; the carried string stands
  for `str(e)`.  Where only control flow matters, error messages are
  abbreviated ("TypeError", "AttributeError").
* `time.time()` is modelled by an explicit clock `Nat → Nat` giving the
  millisecond reading of the k-th call made by one extraction pass.
* The Gemini chat model (`ChatGoogleGenerativeAI(...).invoke`) is the
  injected completion capability `List Msg → Except String String`.
-/

namespace HealthLink

/-- JSON values as produced by `json.loads`; `num` keeps the numeric
lexeme of the source text. -/
inductive Json where
  | null : Json
  | bool : Bool → Json
  | num : String → Json
  | str : String → Json
  | arr : List Json → Json
  | obj : List (String × Json) → Json

/-- A Python dict whose keys are strings (the shape handled by
`parse_actions_from_response` and the context plumbing). -/
abbrev Dict := List (String × Json)

/-- `d.get(k)` / `d[k]`: first binding of the key, searched left to right. -/
def dictGet : Dict → String → Option Json
  | [], _ => none
  | (k', v) :: rest, k => if k' = k then some v else dictGet rest k

/-- `d.get(k, dflt)`. -/
def dictGetD (d : Dict) (k : String) (dflt : Json) : Json :=
  (dictGet d k).getD dflt

/-- `d[k] = v`: replace the value at the key's existing position, or
append the binding at the end (CPython insertion-order semantics). -/
def dictSet : Dict → String → Json → Dict
  | [], k, v => [(k, v)]
  | (k', v') :: rest, k, v =>
    if k' = k then (k', v) :: rest else (k', v') :: dictSet rest k v

/-- `base.update(other)`: fold every binding of `other` into `base`. -/
def dictUpdate (base : Dict) (other : Dict) : Dict :=
  other.foldl (fun d kv => dictSet d kv.1 kv.2) base

/-- The whitespace characters stripped by `str.strip()` (ASCII set; the
texts handled by this pipeline are produced from these characters). -/
def pyWs (c : Char) : Bool :=
  c = ' ' || c = '\t' || c = '\n' || c = '\r' || c = '\x0b' || c = '\x0c'

/-- Right strip: drop trailing whitespace. -/
def stripEnd (s : List Char) : List Char :=
  (s.reverse.dropWhile pyWs).reverse

/-- `str.strip()` on a character list. -/
def pyStripL (s : List Char) : List Char :=
  stripEnd (s.dropWhile pyWs)

/-- `str.strip()` on a string. -/
def pyStrip (s : String) : String :=
  ⟨pyStripL s.data⟩

/-- Does `pat` stand at the head of `s`? -/
def headMatch : List Char → List Char → Bool
  | [], _ => true
  | _ :: _, [] => false
  | p :: ps, c :: cs => p = c && headMatch ps cs

/-- Leftmost occurrence split: `findSplit pat s = some (a, b)` with
`s = a ++ pat ++ b` and `a` shortest possible; `none` when `pat` does not
occur in `s`. -/
def findSplit (pat : List Char) : List Char → Option (List Char × List Char)
  | [] => if headMatch pat [] then some ([], []) else none
  | c :: rest =>
    if headMatch pat (c :: rest) then some ([], (c :: rest).drop pat.length)
    else (findSplit pat rest).map (fun pr => (c :: pr.1, pr.2))

/-- Boolean occurrence test used to express "the text contains ...". -/
def occursIn (pat s : List Char) : Bool :=
  (findSplit pat s).isSome

/-- The literal start delimiter of the regex
`\*\*ACTION_START\*\*(.*?)\*\*ACTION_END\*\*`. -/
def startMark : List Char := "**ACTION_START**".data

/-- The literal end delimiter of the same regex. -/
def endMark : List Char := "**ACTION_END**".data

/-- One left-to-right pass of the Python regex engine over the pattern
(with `re.DOTALL`): repeatedly take the leftmost start delimiter and the
first end delimiter after it (lazy `.*?`), collecting `(gap, interior)`
pairs and the unmatched tail.  Both `re.findall` and `re.sub` scan this
way. -/
def scanAux (fuel : Nat) (s : List Char) :
    List (List Char × List Char) × List Char :=
  match fuel with
  | 0 => ([], s)
  | f + 1 =>
    match findSplit startMark s with
    | none => ([], s)
    | some (g, rest) =>
      match findSplit endMark rest with
      | none => ([], s)
      | some (i, rest2) =>
        let (bs, t) := scanAux f rest2
        ((g, i) :: bs, t)

/-- Delimiter scan of a whole text (fuel is ample: every match consumes
at least the start delimiter). -/
def scanText (s : List Char) : List (List Char × List Char) × List Char :=
  scanAux (s.length + 1) s

/-- The text with every delimiter-matched region deleted: concatenation
of the gaps and the tail (`re.sub(pattern, '', text)`). -/
def joinGaps (bs : List (List Char × List Char)) (t : List Char) : List Char :=
  (bs.map Prod.fst).foldr (· ++ ·) t

/-- The whitespace skipped by the JSON grammar (`json.loads`). -/
def jsonWs (c : Char) : Bool :=
  c = ' ' || c = '\t' || c = '\n' || c = '\r'

/-- Value of one hexadecimal digit. -/
def hexVal (c : Char) : Option Nat :=
  if '0' ≤ c ∧ c ≤ '9' then some (c.toNat - 48)
  else if 'a' ≤ c ∧ c ≤ 'f' then some (c.toNat - 87)
  else if 'A' ≤ c ∧ c ≤ 'F' then some (c.toNat - 55)
  else none

/-- Body of a JSON string literal, after the opening quote; handles the
escape sequences of the grammar and rejects raw control characters
(strict mode of `json.loads`).  `\uXXXX` is mapped through `Char.ofNat`
(lone surrogates collapse to the default character; no claim inspects
them). -/
def parseStringBody : List Char → List Char → Option (String × List Char)
  | _, [] => none
  | acc, '"' :: rest => some (⟨acc.reverse⟩, rest)
  | acc, '\\' :: rest =>
    match rest with
    | '"' :: r => parseStringBody ('"' :: acc) r
    | '\\' :: r => parseStringBody ('\\' :: acc) r
    | '/' :: r => parseStringBody ('/' :: acc) r
    | 'b' :: r => parseStringBody ('\x08' :: acc) r
    | 'f' :: r => parseStringBody ('\x0c' :: acc) r
    | 'n' :: r => parseStringBody ('\n' :: acc) r
    | 'r' :: r => parseStringBody ('\r' :: acc) r
    | 't' :: r => parseStringBody ('\t' :: acc) r
    | 'u' :: h1 :: h2 :: h3 :: h4 :: r =>
      match hexVal h1, hexVal h2, hexVal h3, hexVal h4 with
      | some a, some b, some c, some d =>
        parseStringBody (Char.ofNat (((a * 16 + b) * 16 + c) * 16 + d) :: acc) r
      | _, _, _, _ => none
    | _ => none
  | acc, c :: rest =>
    if c.toNat < 32 then none else parseStringBody (c :: acc) rest

/-- Optional fraction part `.digits`. -/
def parseFrac (s : List Char) : Option (List Char × List Char) :=
  match s with
  | '.' :: r =>
    let ds := r.takeWhile Char.isDigit
    if ds.isEmpty then none else some ('.' :: ds, r.dropWhile Char.isDigit)
  | _ => some ([], s)

/-- Optional exponent part `[eE][+-]?digits`. -/
def parseExp (s : List Char) : Option (List Char × List Char) :=
  match s with
  | c :: r =>
    if c = 'e' ∨ c = 'E' then
      let (sgn, r1) : List Char × List Char :=
        match r with
        | k :: r' => if k = '+' ∨ k = '-' then ([k], r') else ([], r)
        | [] => ([], r)
      let ds := r1.takeWhile Char.isDigit
      if ds.isEmpty then none
      else some (c :: (sgn ++ ds), r1.dropWhile Char.isDigit)
    else some ([], s)
  | [] => some ([], [])

/-- Fraction then exponent. -/
def parseFracExp (s : List Char) : Option (List Char × List Char) := do
  let (fr, s1) ← parseFrac s
  let (ex, s2) ← parseExp s1
  pure (fr ++ ex, s2)

/-- JSON number lexeme `-?(0|[1-9]digits*)(.digits+)?([eE][+-]?digits+)?`. -/
def parseNumber (s : List Char) : Option (List Char × List Char) :=
  let (sgn, s1) : List Char × List Char :=
    match s with
    | '-' :: r => (['-'], r)
    | _ => ([], s)
  match s1 with
  | [] => none
  | c :: r =>
    if c = '0' then
      (parseFracExp r).map (fun p => (sgn ++ [c] ++ p.1, p.2))
    else if c.isDigit then
      let ds := r.takeWhile Char.isDigit
      let r2 := r.dropWhile Char.isDigit
      (parseFracExp r2).map (fun p => (sgn ++ (c :: ds) ++ p.1, p.2))
    else none

/-- Opening brace character (written numerically). -/
def lbraceC : Char := Char.ofNat 123

/-- Closing brace character (written numerically). -/
def rbraceC : Char := Char.ofNat 125

mutual

/-- Recursive-descent parser for one JSON value, mirroring the grammar
accepted by `json.loads` (including its non-standard `NaN`, `Infinity`
and `-Infinity` literals).  Fuel bounds the recursion; `jsonDecode`
supplies more fuel than any input can consume. -/
def parseValue : Nat → List Char → Option (Json × List Char)
  | 0, _ => none
  | f + 1, s =>
    match s.dropWhile jsonWs with
    | [] => none
    | c :: rest =>
      if c = '"' then
        (parseStringBody [] rest).map (fun p => (Json.str p.1, p.2))
      else if c = lbraceC then
        match rest.dropWhile jsonWs with
        | [] => none
        | q :: rest2 =>
          if q = rbraceC then some (Json.obj [], rest2)
          else if q = '"' then
            match parseStringBody [] rest2 with
            | none => none
            | some (key, rest3) =>
              match rest3.dropWhile jsonWs with
              | ':' :: rest4 =>
                match parseValue f rest4 with
                | none => none
                | some (v, rest5) => parseObjRest f rest5 [(key, v)]
              | _ => none
          else none
      else if c = '[' then
        match rest.dropWhile jsonWs with
        | ']' :: rest2 => some (Json.arr [], rest2)
        | s2 =>
          match parseValue f s2 with
          | none => none
          | some (v, rest2) => parseArrRest f rest2 [v]
      else if headMatch "true".data (c :: rest) then
        some (Json.bool true, (c :: rest).drop 4)
      else if headMatch "false".data (c :: rest) then
        some (Json.bool false, (c :: rest).drop 5)
      else if headMatch "null".data (c :: rest) then
        some (Json.null, (c :: rest).drop 4)
      else if headMatch "NaN".data (c :: rest) then
        some (Json.num "NaN", (c :: rest).drop 3)
      else if headMatch "Infinity".data (c :: rest) then
        some (Json.num "Infinity", (c :: rest).drop 8)
      else if headMatch "-Infinity".data (c :: rest) then
        some (Json.num "-Infinity", (c :: rest).drop 9)
      else
        (parseNumber (c :: rest)).map (fun p => (Json.num ⟨p.1⟩, p.2))

/-- Array elements after the first one: `, value` repeated until `]`. -/
def parseArrRest : Nat → List Char → List Json → Option (Json × List Char)
  | 0, _, _ => none
  | f + 1, s, acc =>
    match s.dropWhile jsonWs with
    | ']' :: rest => some (Json.arr acc, rest)
    | ',' :: rest =>
      match parseValue f rest with
      | none => none
      | some (v, rest2) => parseArrRest f rest2 (acc ++ [v])
    | _ => none

/-- Object members after the first one: `, "key" : value` repeated until
the closing brace; duplicates resolve like repeated `d[k] = v`. -/
def parseObjRest : Nat → List Char → List (String × Json) → Option (Json × List Char)
  | 0, _, _ => none
  | f + 1, s, acc =>
    match s.dropWhile jsonWs with
    | [] => none
    | q :: rest =>
      if q = rbraceC then
        some (Json.obj (acc.foldl (fun d kv => dictSet d kv.1 kv.2) []), rest)
      else if q = ',' then
        match rest.dropWhile jsonWs with
        | '"' :: rest2 =>
          match parseStringBody [] rest2 with
          | none => none
          | some (key, rest3) =>
            match rest3.dropWhile jsonWs with
            | ':' :: rest4 =>
              match parseValue f rest4 with
              | none => none
              | some (v, rest5) => parseObjRest f rest5 (acc ++ [(key, v)])
            | _ => none
        | _ => none
      else none

end

/-- `json.loads` on a character list: one value, optionally surrounded by
whitespace; anything left over is "Extra data" and the whole parse
fails (`None` stands for `json.JSONDecodeError`). -/
def jsonDecode (s : List Char) : Option Json :=
  match parseValue (s.length + 1) s with
  | some (v, rest) => if (rest.dropWhile jsonWs).isEmpty then some v else none
  | none => none

/-- The mutation block of `parse_actions_from_response` applied to one
successfully parsed object (`action_json`), given the millisecond reading
`t` of its `time.time()` call:
`action_json['id'] = f"action-{int(time.time() * 1000)}"`,
`action_json['status'] = 'pending'`,
`action_json['priority'] = action_json.get('priority', 'medium')`. -/
def buildAction (kvs : Dict) (t : Nat) : Dict :=
  let d1 := dictSet kvs "id" (Json.str ("action-" ++ toString t))
  let d2 := dictSet d1 "status" (Json.str "pending")
  dictSet d2 "priority" (dictGetD d2 "priority" (Json.str "medium"))

/-- The `for match in matches:` loop of `parse_actions_from_response`,
over the captured interiors.  `k` counts the `time.time()` calls made so
far.  A `json.JSONDecodeError` is caught and the region skipped; a
successful parse that is not an object makes the subsequent item
assignment raise `TypeError`, which escapes the loop (only
`json.JSONDecodeError` is caught there). -/
def processMatches (clock : Nat → Nat) : Nat → List (List Char) → Except String (List Dict)
  | _, [] => Except.ok []
  | k, m :: ms =>
    match jsonDecode (pyStripL m) with
    | none => processMatches clock k ms
    | some (Json.obj kvs) =>
      (processMatches clock (k + 1) ms).map (buildAction kvs (clock k) :: ·)
    | some _ => Except.error "TypeError: item assignment on a non-dict JSON value"

/-- `parse_actions_from_response(response_text)`: `re.findall` of the
delimiter pattern (capture group = interior) followed by the parse loop. -/
def parse_actions_from_response (clock : Nat → Nat) (response_text : String) :
    Except String (List Dict) :=
  processMatches clock 0 ((scanText response_text.data).1.map Prod.snd)

/-- `remove_action_blocks(response_text)`: `re.sub(pattern, '', text)`
followed by `.strip()`. -/
def remove_action_blocks (response_text : String) : String :=
  let (bs, t) := scanText response_text.data
  ⟨pyStripL (joinGaps bs t)⟩

/-- `fetch_patient_context` (the Context Normalizer node): rebuild the
doctor context with the seven keys the prompt assembly reads, defaulting
each absent one.  (The node receives `state.get("patient_context", {})`;
the orchestrator always supplies the key, so the function is stated on
the context mapping itself.) -/
def fetch_patient_context (existing_context : Dict) : Dict :=
  [("name", dictGetD existing_context "name" (Json.str "Doctor")),
   ("appointments", dictGetD existing_context "appointments" (Json.arr [])),
   ("prescriptions", dictGetD existing_context "prescriptions" (Json.arr [])),
   ("records", dictGetD existing_context "records" (Json.arr [])),
   ("labTests", dictGetD existing_context "labTests" (Json.arr [])),
   ("patients", dictGetD existing_context "patients" (Json.arr [])),
   ("stats", dictGetD existing_context "stats" (Json.obj []))]

/-- The seven context fields read by the prompt assembly. -/
def knownKeys : List String :=
  ["name", "appointments", "prescriptions", "records", "labTests",
   "patients", "stats"]

/-- Python truthiness of a JSON-shaped value (`if x:`).  A number is
falsy exactly when its mantissa digits are all zero; `NaN`/`Infinity`
are truthy. -/
def pyTruthy : Json → Bool
  | Json.null => false
  | Json.bool b => b
  | Json.str s => !s.isEmpty
  | Json.arr xs => !xs.isEmpty
  | Json.obj kvs => !kvs.isEmpty
  | Json.num lex =>
    let mant := lex.data.takeWhile (fun c => c ≠ 'e' ∧ c ≠ 'E')
    let ds := mant.filter Char.isDigit
    ds.isEmpty || ds.any (· ≠ '0')

mutual

/-- Python `repr` of a JSON-shaped value (float rendering approximated
by the stored lexeme; only used to build prompt text). -/
def pyRepr : Json → String
  | Json.null => "None"
  | Json.bool true => "True"
  | Json.bool false => "False"
  | Json.num lex => lex
  | Json.str s => "\x27" ++ s ++ "\x27"
  | Json.arr xs => "[" ++ reprItems xs ++ "]"
  | Json.obj kvs => "\x7b" ++ reprMembers kvs ++ "\x7d"

/-- Comma-separated reprs of list elements. -/
def reprItems : List Json → String
  | [] => ""
  | [x] => pyRepr x
  | x :: y :: xs => pyRepr x ++ ", " ++ reprItems (y :: xs)

/-- Comma-separated `'key': repr` members of a dict. -/
def reprMembers : List (String × Json) → String
  | [] => ""
  | [(k, v)] => "\x27" ++ k ++ "\x27: " ++ pyRepr v
  | (k, v) :: m :: kvs =>
    "\x27" ++ k ++ "\x27: " ++ pyRepr v ++ ", " ++ reprMembers (m :: kvs)

end

/-- Python `str()` as applied inside an f-string. -/
def pyStr : Json → String
  | Json.str s => s
  | v => pyRepr v

/-- Iterate a record-list value and read each element as a dict, as the
summary loops do (`[a for a in xs ...]` with `a.get(...)` per element).
A non-list value or a non-dict element raises. -/
def asDictList : Json → Except String (List Dict)
  | Json.arr xs =>
    xs.mapM (fun x =>
      match x with
      | Json.obj kvs => Except.ok kvs
      | _ => Except.error "AttributeError: element has no attribute get")
  | _ => Except.error "TypeError: value is not a list of records"

/-- `str(value.get(k, dflt))` for one record field, with a string
default. -/
def fieldStr (a : Dict) (k : String) (dflt : String) : String :=
  pyStr (dictGetD a k (Json.str dflt))

/-- `a.get('status') == s` (a missing key compares unequal). -/
def statusIs (a : Dict) (s : String) : Bool :=
  match dictGet a "status" with
  | some (Json.str v) => v = s
  | _ => false

/-- `t.get('status') in ss`. -/
def statusIn (t : Dict) (ss : List String) : Bool :=
  match dictGet t "status" with
  | some (Json.str v) => ss.contains v
  | _ => false

/-- One bullet line of the recent-appointments digest. -/
def apptLine (a : Dict) : String :=
  "â€¢ " ++ fieldStr a "patientName" "Unknown" ++ " - " ++
    fieldStr a "scheduledAt" "Unknown date" ++ " - " ++
    fieldStr a "status" "Unknown" ++ " - " ++
    pyStr (dictGetD a "title" (dictGetD a "description" (Json.str "No title")))

/-- `appointments_summary` (lines 84–99 of `agent_graph.py`). -/
def apptsSummary (appointments : Json) : Except String String :=
  if pyTruthy appointments then do
    let l ← asDictList appointments
    let pending := l.filter (fun a => statusIs a "SCHEDULED")
    let completed := l.filter (fun a => statusIs a "COMPLETED")
    let cancelled := l.filter (fun a => statusIs a "CANCELLED")
    let base := toString l.length ++ " total appointments (" ++
      toString pending.length ++ " scheduled, " ++
      toString completed.length ++ " completed, " ++
      toString cancelled.length ++ " cancelled)"
    pure (base ++ "\n" ++ String.intercalate "\n" ((l.take 5).map apptLine))
  else
    pure "No appointments on record"

/-- One bullet line of the recent-prescriptions digest. -/
def prescLine (p : Dict) : String :=
  "â€¢ " ++ fieldStr p "patientName" "Unknown" ++ ": " ++
    fieldStr p "medication" "Unknown" ++ " " ++ fieldStr p "dosage" "N/A" ++
    " - Status: " ++ fieldStr p "status" "Unknown"

/-- `prescriptions_summary` (lines 102–112). -/
def prescSummary (prescriptions : Json) : Except String String :=
  if pyTruthy prescriptions then do
    let l ← asDictList prescriptions
    let base := toString l.length ++ " total prescriptions"
    pure (base ++ "\n" ++ String.intercalate "\n" ((l.take 5).map prescLine))
  else
    pure "No prescriptions on record"

/-- `description[:50]`: string slicing; a list also slices (rendered via
`str`); other values raise. -/
def pySlice50 : Json → Except String String
  | Json.str s => Except.ok ⟨s.data.take 50⟩
  | Json.arr xs => Except.ok (pyStr (Json.arr (xs.take 50)))
  | _ => Except.error "TypeError: value does not support slicing"

/-- One bullet line of the medical-records digest (may raise through the
slice of `description`). -/
def recordLine (r : Dict) : Except String String := do
  let desc ← pySlice50 (dictGetD r "description" (Json.str "No description"))
  pure ("â€¢ " ++ fieldStr r "patientName" "Unknown" ++ ": " ++
    fieldStr r "title" "Untitled" ++ " - " ++ desc ++ "... - Type: " ++
    fieldStr r "recordType" "General")

/-- `records_summary` (lines 115–125). -/
def recordsSummary (records : Json) : Except String String :=
  if pyTruthy records then do
    let l ← asDictList records
    let lines ← (l.take 5).mapM recordLine
    let base := toString l.length ++ " total medical records"
    pure (base ++ "\n" ++ String.intercalate "\n" lines)
  else
    pure "No medical records on file"

/-- One bullet line of the lab-tests digest. -/
def labLine (t : Dict) : String :=
  "â€¢ " ++ fieldStr t "patientName" "Unknown" ++ ": " ++
    fieldStr t "testName" "Unknown" ++ " (" ++ fieldStr t "testType" "N/A" ++
    ") - " ++ fieldStr t "status" "Unknown"

/-- `lab_tests_summary` (lines 128–141). -/
def labsSummary (lab_tests : Json) : Except String String :=
  if pyTruthy lab_tests then do
    let l ← asDictList lab_tests
    let pending := l.filter (fun t => statusIn t ["PENDING", "IN_PROGRESS"])
    let completed := l.filter (fun t => statusIs t "COMPLETED")
    let base := toString l.length ++ " total lab tests (" ++
      toString pending.length ++ " pending, " ++
      toString completed.length ++ " completed)"
    pure (base ++ "\n" ++ String.intercalate "\n" ((l.take 5).map labLine))
  else
    pure "No lab tests on record"

/-- One bullet line of the patient roster. -/
def patientLine (p : Dict) : String :=
  "â€¢ " ++ fieldStr p "name" "Unknown" ++ " (" ++ fieldStr p "email" "N/A" ++ ")"

/-- `patients_summary` (lines 144–153; the stderr debug prints are side
effects outside the model). -/
def patientsSummary (patients : Json) : Except String String :=
  if pyTruthy patients then do
    let l ← asDictList patients
    let base := toString l.length ++ " total patients"
    pure (base ++ "\n" ++ String.intercalate "\n" ((l.take 20).map patientLine))
  else
    pure "No patients on record"

/-- `stats.get(k, 0)`; raises when `stats` is not a dict. -/
def statGet (stats : Json) (k : String) : Except String Json :=
  match stats with
  | Json.obj kvs => Except.ok (dictGetD kvs k (Json.num "0"))
  | _ => Except.error "AttributeError: stats has no attribute get"

/-- The fixed tail of the system prompt (everything after the lab-tests
digest: the workflow rules, the action grammar and the example; lines
196–234 of `agent_graph.py`). -/
def promptTail : String :=
  "\n\n---\n\n## Semi-Automated Workflow System:\n\nWhen doctors request actions, generate JSON formatted actions they can review and execute with one click.\n\n### Supported Actions:\n\n**1. CREATE_PRESCRIPTION** - For new prescriptions\n**2. SCHEDULE_APPOINTMENT** - For new appointments  \n**3. ORDER_LAB_TEST** - For lab test orders\n**4. UPDATE_MEDICAL_RECORD** - For adding medical records\n\n### Response Format for Actions:\n\nWhen generating an action, use this format:\n\n**ACTION_START**\n\x7b\"type\": \"ACTION_TYPE\", \"data\": \x7b...\x7d, \"description\": \"...\"\x7d\n**ACTION_END**\n\n### Example:\nRequest: \"Create prescription for Devesh Tiwari - Amoxicillin 500mg twice daily for 7 days\"\n\nResponse:\nI\x27ll prepare a prescription for Devesh Tiwari.\n\n**ACTION_START**\n\x7b\"type\": \"CREATE_PRESCRIPTION\", \"data\": \x7b\"patientId\": \"clabcdefgh123\", \"patientName\": \"Devesh Tiwari\", \"medication\": \"Amoxicillin\", \"dosage\": \"500mg\", \"instructions\": \"Take twice daily with food for 7 days\", \"expiryDate\": \"2026-01-10\"\x7d, \"description\": \"Prescription: Amoxicillin 500mg for Devesh Tiwari\"\x7d\n**ACTION_END**\n\n**Rules:**\n1. Validate patient names against the list above\n2. Extract patient IDs from context\n3. Be specific with dosages and timing\n4. Ask for clarification if needed\n5. Only generate actions for clear requests\n\nAnswer professionally and save doctors time."

/-- The prompt assembly of `generate_response` (lines 71–234): read the
seven context fields with defaults, build the five digests and the
statistics, and render the system-prompt f-string.  Runs before the
`try:` block, so any failure here propagates out of the node. -/
def buildSystemPrompt (patient_context : Dict) : Except String String := do
  let doctor_name := dictGetD patient_context "name" (Json.str "Doctor")
  let appointments := dictGetD patient_context "appointments" (Json.arr [])
  let prescriptions := dictGetD patient_context "prescriptions" (Json.arr [])
  let records := dictGetD patient_context "records" (Json.arr [])
  let lab_tests := dictGetD patient_context "labTests" (Json.arr [])
  let patients := dictGetD patient_context "patients" (Json.arr [])
  let stats := dictGetD patient_context "stats" (Json.obj [])
  let appointments_summary ← apptsSummary appointments
  let prescriptions_summary ← prescSummary prescriptions
  let records_summary ← recordsSummary records
  let lab_tests_summary ← labsSummary lab_tests
  let patients_summary ← patientsSummary patients
  let total_patients ← statGet stats "totalPatients"
  let total_appointments ← statGet stats "totalAppointments"
  let pending_appointments ← statGet stats "pendingAppointments"
  let total_prescriptions ← statGet stats "totalPrescriptions"
  let total_lab_tests ← statGet stats "totalLabTests"
  let total_records ← statGet stats "totalRecords"
  pure ("You are DoctorSathi AI, an intelligent medical workflow automation assistant for doctors on the HealthLink platform.\n\nYou are currently assisting **"
    ++ pyStr doctor_name
    ++ "**, a medical professional.\n\n**Doctor\x27s Current Workload (Real Data from Database):**\n\nðŸ“Š **Statistics:**\n- Total Patients: "
    ++ pyStr total_patients
    ++ "\n- Total Appointments: " ++ pyStr total_appointments
    ++ " (" ++ pyStr pending_appointments ++ " scheduled)\n- Active Prescriptions: "
    ++ pyStr total_prescriptions
    ++ "\n- Lab Tests Ordered: " ++ pyStr total_lab_tests
    ++ "\n- Medical Records: " ++ pyStr total_records
    ++ "\n\nðŸ‘¥ **Your Patients:**\n" ++ patients_summary
    ++ "\n\nðŸ“… **Recent Appointments:**\n" ++ appointments_summary
    ++ "\n\nðŸ’Š **Recent Prescriptions:**\n" ++ prescriptions_summary
    ++ "\n\nðŸ“‹ **Medical Records:**\n" ++ records_summary
    ++ "\n\nðŸ”¬ **Lab Tests:**\n" ++ lab_tests_summary
    ++ promptTail)

/-- A chat message (`SystemMessage` / `HumanMessage` / `AIMessage`). -/
inductive Msg where
  | system : String → Msg
  | human : String → Msg
  | ai : String → Msg

/-- The completion capability: `ChatGoogleGenerativeAI(...)` construction
plus `.invoke(full_messages)`, reduced to one injected operation that
either returns the reply text or raises. -/
abbrev Capability := List Msg → Except String String

/-- The slice of the graph state a node reads (`messages` and
`patient_context`; `user_id` and `response` are not read by the nodes). -/
structure GenState where
  messages : List Msg
  patient_context : Dict

/-- What `generate_response` returns on its normal (non-raising) paths:
the updated message list, the reply text, and the parsed actions. -/
structure GenResult where
  messages : List Msg
  response : String
  actions : List Dict

/-- The apology reply built by the `except` clause of
`generate_response`, from `str(e)`. -/
def apologyText (e : String) : String :=
  "I apologize, but I\x27m experiencing technical difficulties right now. Error: "
    ++ e ++
    "\n\nPlease try again in a moment or contact support if this persists."

/-- `generate_response` (lines 66–273): assemble the system prompt
(outside the `try:`, failures propagate), then inside the `try:` invoke
the completion capability, extract actions and strip the reply; any
exception there is converted to the apology turn with an empty action
list. -/
def generate_response (clock : Nat → Nat) (cap : Capability) (state : GenState) :
    Except String GenResult :=
  match buildSystemPrompt state.patient_context with
  | Except.error e => Except.error e
  | Except.ok system_prompt =>
    match cap (Msg.system system_prompt :: state.messages) with
    | Except.error e =>
      Except.ok ⟨state.messages ++ [Msg.ai (apologyText e)], apologyText e, []⟩
    | Except.ok ai_response =>
      match parse_actions_from_response clock ai_response with
      | Except.error e =>
        Except.ok ⟨state.messages ++ [Msg.ai (apologyText e)], apologyText e, []⟩
      | Except.ok actions =>
        Except.ok ⟨state.messages ++ [Msg.ai (remove_action_blocks ai_response)],
          remove_action_blocks ai_response, actions⟩

/-- What `invoke_agent` hands back to its caller. -/
structure InvokeResult where
  response : String
  actions : List Dict
  user_id : String
  thread_id : String
  patient_context : Dict

/-- The default thread id: `thread_id or f"thread-{user_id}"` — `None`
and the empty string (both falsy) fall back to the derived id. -/
def resolveThreadId (thread_id : Option String) (user_id : String) : String :=
  match thread_id with
  | none => "thread-" ++ user_id
  | some s => if s = "" then "thread-" ++ user_id else s

/-- `{"name": user_name}` then `.update(patient_context)` when the
context is truthy; a truthy non-dict context makes `update` raise. -/
def mkInitialContext (user_name : String) (patient_context : Option Json) :
    Except String Dict :=
  match patient_context with
  | none => Except.ok [("name", Json.str user_name)]
  | some pc =>
    if pyTruthy pc then
      match pc with
      | Json.obj kvs => Except.ok (dictUpdate [("name", Json.str user_name)] kvs)
      | _ => Except.error "TypeError: dict.update on a non-mapping"
    else
      Except.ok [("name", Json.str user_name)]

/-- `invoke_agent` (lines 349–392): resolve the thread id, build the
initial state, run the two-node graph (`fetch_patient_context` then
`generate_response`), and package the result; any exception is re-raised
as `Exception(f"Error invoking agent: {e}")`. -/
def invoke_agent (clock : Nat → Nat) (cap : Capability)
    (user_id user_name message : String) (thread_id : Option String)
    (patient_context : Option Json) : Except String InvokeResult :=
  match mkInitialContext user_name patient_context with
  | Except.error e => Except.error ("Error invoking agent: " ++ e)
  | Except.ok initial_doctor_context =>
    match generate_response clock cap
        ⟨[Msg.human message], fetch_patient_context initial_doctor_context⟩ with
    | Except.error e => Except.error ("Error invoking agent: " ++ e)
    | Except.ok gen =>
      Except.ok ⟨gen.response, gen.actions, user_id,
        resolveThreadId thread_id user_id,
        fetch_patient_context initial_doctor_context⟩

/-- The positional-argument handling of `run_agent.py` `main()` (lines
27–31): every missing argument is replaced by a default, never rejected.
`argv` includes the script name at index 0. -/
def parsedArgs (argv : List String) :
    String × String × String × Option String × String :=
  (argv.getD 1 "unknown",
   argv.getD 2 "Doctor",
   argv.getD 3 "Hello",
   if argv.length > 4 then some (argv.getD 4 "") else none,
   argv.getD 5 "\x7b\x7d")

/-- Outcome of one `run_agent.py` process run: the JSON document printed
to stdout, as structured data (serialization itself is not modelled). -/
inductive MainOut where
  | success : InvokeResult → MainOut
  | failure : String → MainOut

/-- Process exit code: 0 on success, 1 on any caught top-level failure. -/
def exitCodeOf : MainOut → Nat
  | MainOut.success _ => 0
  | MainOut.failure _ => 1

/-- The debug block after `json.loads` succeeds: it calls
`len(doctor_context.get(k, []))` for five keys, which raises when the
context is not a dict or a present value has no length; only
`json.JSONDecodeError` is caught by the inner `try`, so such a failure
escapes to the outer handler. -/
def debugLens (d : Json) : Except String Unit :=
  match d with
  | Json.obj kvs =>
    (["patients", "appointments", "prescriptions", "records", "labTests"].mapM
      (fun k =>
        match dictGetD kvs k (Json.arr []) with
        | Json.arr _ => Except.ok ()
        | Json.obj _ => Except.ok ()
        | Json.str _ => Except.ok ()
        | _ => Except.error "TypeError: object has no len()")).map (fun _ => ())
  | _ => Except.error "AttributeError: context has no attribute get"

/-- `main()` of `run_agent.py`: parse the positional arguments with
defaults, decode `contextJson` (decode failure → empty context; any
other failure in the debug block escapes), invoke the agent, and print
one JSON document; exceptions become the `{success: false, error}` shape
with exit code 1. -/
def run_main (clock : Nat → Nat) (cap : Capability) (argv : List String) : MainOut :=
  let (user_id, user_name, message, thread_id, doctor_context_str) := parsedArgs argv
  let ctxAttempt : Except String Json :=
    match jsonDecode doctor_context_str.data with
    | none => Except.ok (Json.obj [])
    | some v => (debugLens v).map (fun _ => v)
  match ctxAttempt with
  | Except.error e => MainOut.failure ("Error invoking agent: " ++ e)
  | Except.ok doctor_context =>
    match invoke_agent clock cap user_id user_name message thread_id
        (some doctor_context) with
    | Except.ok r => MainOut.success r
    | Except.error e => MainOut.failure ("Error invoking agent: " ++ e)

/-- Reconstruction of a text from its delimiter scan: interleave the
gaps and interiors with the two markers and append the tail. -/
def unscan : List (List Char × List Char) → List Char → List Char
  | [], t => t
  | (g, i) :: bs, t => g ++ startMark ++ i ++ endMark ++ unscan bs t

/-- `Except.ok`-ness as a Boolean. -/
def isOkE {ε α : Type} : Except ε α → Bool
  | Except.ok _ => true
  | Except.error _ => false

theorem dictGet_dictSet_self (d : Dict) (k : String) (v : Json) :
    dictGet (dictSet d k v) k = some v := by
  induction d with
  | nil => simp [dictSet, dictGet]
  | cons kv rest ih =>
    obtain ⟨k', v'⟩ := kv
    by_cases h : k' = k
    · simp [dictSet, dictGet, h]
    · simp [dictSet, dictGet, h, ih]

theorem dictGet_dictSet_ne (d : Dict) (k k' : String) (v : Json)
    (h : k ≠ k') : dictGet (dictSet d k v) k' = dictGet d k' := by
  induction d with
  | nil => simp [dictSet, dictGet, h]
  | cons kv rest ih =>
    obtain ⟨k0, v0⟩ := kv
    by_cases h0 : k0 = k
    · subst h0
      simp [dictSet, dictGet, h]
    · simp [dictSet, dictGet, h0, ih]

theorem buildAction_id (kvs : Dict) (t : Nat) :
    dictGet (buildAction kvs t) "id" = some (Json.str ("action-" ++ toString t)) := by
  unfold buildAction
  rw [dictGet_dictSet_ne _ _ _ _ (by decide), dictGet_dictSet_ne _ _ _ _ (by decide),
    dictGet_dictSet_self]

theorem buildAction_status (kvs : Dict) (t : Nat) :
    dictGet (buildAction kvs t) "status" = some (Json.str "pending") := by
  unfold buildAction
  rw [dictGet_dictSet_ne _ _ _ _ (by decide), dictGet_dictSet_self]

theorem buildAction_keeps (kvs : Dict) (t : Nat) (k : String)
    (h1 : k ≠ "id") (h2 : k ≠ "status") (h3 : k ≠ "priority") :
    dictGet (buildAction kvs t) k = dictGet kvs k := by
  unfold buildAction
  rw [dictGet_dictSet_ne _ _ _ _ (fun h => h3 h.symm),
    dictGet_dictSet_ne _ _ _ _ (fun h => h2 h.symm),
    dictGet_dictSet_ne _ _ _ _ (fun h => h1 h.symm)]

theorem buildAction_priority_kept (kvs : Dict) (t : Nat) (v : Json)
    (h : dictGet kvs "priority" = some v) :
    dictGet (buildAction kvs t) "priority" = some v := by
  unfold buildAction
  have h2 : dictGet (dictSet (dictSet kvs "id"
      (Json.str ("action-" ++ toString t))) "status" (Json.str "pending"))
      "priority" = some v := by
    rw [dictGet_dictSet_ne _ _ _ _ (by decide), dictGet_dictSet_ne _ _ _ _ (by decide), h]
  rw [dictGet_dictSet_self, dictGetD, h2]
  rfl

theorem buildAction_priority_default (kvs : Dict) (t : Nat)
    (h : dictGet kvs "priority" = none) :
    dictGet (buildAction kvs t) "priority" = some (Json.str "medium") := by
  unfold buildAction
  have h2 : dictGet (dictSet (dictSet kvs "id"
      (Json.str ("action-" ++ toString t))) "status" (Json.str "pending"))
      "priority" = none := by
    rw [dictGet_dictSet_ne _ _ _ _ (by decide), dictGet_dictSet_ne _ _ _ _ (by decide), h]
  rw [dictGet_dictSet_self, dictGetD, h2]
  rfl

theorem processMatches_skip (clock : Nat → Nat) (m : List Char)
    (hbad : jsonDecode (pyStripL m) = none) :
    ∀ (ms₁ : List (List Char)) (k : Nat) (ms₂ : List (List Char)),
      processMatches clock k (ms₁ ++ m :: ms₂) = processMatches clock k (ms₁ ++ ms₂) := by
  intro ms₁
  induction ms₁ with
  | nil =>
    intro k ms₂
    simp [processMatches, hbad]
  | cons m0 rest ih =>
    intro k ms₂
    simp only [List.cons_append, processMatches]
    cases h0 : jsonDecode (pyStripL m0) with
    | none => exact ih k ms₂
    | some v =>
      cases v with
      | obj kvs =>
        exact congrArg (Except.map fun x => buildAction kvs (clock k) :: x)
          (ih (k + 1) ms₂)
      | null => rfl
      | bool b => rfl
      | num s => rfl
      | str s => rfl
      | arr xs => rfl

theorem headMatch_of_append (p t : List Char) : headMatch p (p ++ t) = true := by
  induction p with
  | nil => rfl
  | cons c ps ih => simp [headMatch, ih]

theorem headMatch_eq_append (p s : List Char) (h : headMatch p s = true) :
    s = p ++ s.drop p.length := by
  induction p generalizing s with
  | nil => simp
  | cons c ps ih =>
    cases s with
    | nil => simp [headMatch] at h
    | cons c' rest =>
      simp only [headMatch, Bool.and_eq_true, decide_eq_true_eq] at h
      obtain ⟨rfl, h2⟩ := h
      simpa using ih rest h2

theorem findSplit_some_eq (p s a b : List Char)
    (h : findSplit p s = some (a, b)) : s = a ++ p ++ b := by
  induction s generalizing a with
  | nil =>
    simp only [findSplit] at h
    by_cases hm : headMatch p [] = true
    · cases p with
      | nil =>
        simp only [headMatch, if_true] at h
        cases h
        rfl
      | cons c ps => simp [headMatch] at hm
    · simp [hm] at h
  | cons c rest ih =>
    simp only [findSplit] at h
    by_cases hm : headMatch p (c :: rest) = true
    · rw [if_pos hm] at h
      cases h
      simpa using headMatch_eq_append p (c :: rest) hm
    · rw [if_neg hm] at h
      cases hfs : findSplit p rest with
      | none => rw [hfs] at h; cases h
      | some pr =>
        rw [hfs] at h
        obtain ⟨a', b'⟩ := pr
        have h3 : c :: a' = a ∧ b' = b := by simpa using h
        obtain ⟨h3a, h3b⟩ := h3
        subst h3a
        subst h3b
        simpa using ih a' hfs

theorem occursIn_append (p a b : List Char) : occursIn p (a ++ p ++ b) = true := by
  induction a with
  | nil =>
    unfold occursIn
    have hm : headMatch p (p ++ b) = true := headMatch_of_append p b
    cases hpb : p ++ b with
    | nil =>
      have hp0 : p = [] := by
        cases p with
        | nil => rfl
        | cons c ps => simp at hpb
      subst hp0
      have hb0 : b = [] := by simpa using hpb
      subst hb0
      simp [findSplit, headMatch]
    | cons c rest =>
      rw [List.nil_append, hpb]
      have hm2 : headMatch p (c :: rest) = true := by rw [← hpb]; exact hm
      simp [findSplit, hm2]
  | cons c a' ih =>
    unfold occursIn at ih ⊢
    have hassoc : (c :: a') ++ p ++ b = c :: (a' ++ p ++ b) := by simp
    rw [hassoc]
    unfold findSplit
    by_cases hm2 : headMatch p (c :: (a' ++ p ++ b)) = true
    · rw [if_pos hm2]
      rfl
    · rw [if_neg hm2]
      cases hfs : findSplit p (a' ++ p ++ b) with
      | none => rw [hfs] at ih; simp at ih
      | some pr => rfl

theorem pyStripL_decomp (s : List Char) :
    s = s.takeWhile pyWs ++ pyStripL s ++
      ((s.dropWhile pyWs).reverse.takeWhile pyWs).reverse := by
  conv_lhs => rw [← List.takeWhile_append_dropWhile (p := pyWs) (l := s)]
  rw [List.append_assoc]
  congr 1
  unfold pyStripL stripEnd
  conv_lhs => rw [← List.reverse_reverse (s.dropWhile pyWs),
    ← List.takeWhile_append_dropWhile (p := pyWs) (l := (s.dropWhile pyWs).reverse)]
  rw [List.reverse_append]

theorem occursIn_pyStripL (p s : List Char)
    (h : occursIn p s = false) : occursIn p (pyStripL s) = false := by
  by_contra hne
  have htrue : occursIn p (pyStripL s) = true := by
    cases hoc : occursIn p (pyStripL s) with
    | false => exact absurd hoc hne
    | true => rfl
  obtain ⟨⟨a, b⟩, hsome⟩ : ∃ pr, findSplit p (pyStripL s) = some pr := by
    unfold occursIn at htrue
    cases hfs : findSplit p (pyStripL s) with
    | none => rw [hfs] at htrue; simp at htrue
    | some pr => exact ⟨pr, rfl⟩
  have hdec := findSplit_some_eq p _ a b hsome
  have hs := pyStripL_decomp s
  rw [hdec] at hs
  have : occursIn p s = true := by
    rw [hs]
    have : s.takeWhile pyWs ++ (a ++ p ++ b) ++
        ((s.dropWhile pyWs).reverse.takeWhile pyWs).reverse =
        (s.takeWhile pyWs ++ a) ++ p ++
        (b ++ ((s.dropWhile pyWs).reverse.takeWhile pyWs).reverse) := by
      simp [List.append_assoc]
    rw [this]
    exact occursIn_append _ _ _
  rw [h] at this
  cases this

theorem scanAux_unscan (fuel : Nat) (s : List Char) :
    unscan (scanAux fuel s).1 (scanAux fuel s).2 = s := by
  induction fuel generalizing s with
  | zero => rfl
  | succ f ih =>
    cases h1 : findSplit startMark s with
    | none => simp only [scanAux, h1]; rfl
    | some gr =>
      obtain ⟨g, rest⟩ := gr
      cases h2 : findSplit endMark rest with
      | none => simp only [scanAux, h1, h2]; rfl
      | some ir =>
        obtain ⟨i, rest2⟩ := ir
        have e1 := findSplit_some_eq _ _ _ _ h1
        have e2 := findSplit_some_eq _ _ _ _ h2
        rcases hsc : scanAux f rest2 with ⟨bs, t⟩
        have ih2 : unscan bs t = rest2 := by
          have hx := ih rest2
          rw [hsc] at hx
          exact hx
        simp only [scanAux, h1, h2, hsc, unscan, ih2]
        rw [e1, e2]
        simp [List.append_assoc]

theorem scanText_unscan (s : List Char) :
    unscan (scanText s).1 (scanText s).2 = s :=
  scanAux_unscan (s.length + 1) s

theorem scanText_fst_nil (s : List Char) (h : (scanText s).1 = []) :
    scanText s = ([], s) := by
  unfold scanText at *
  cases h1 : findSplit startMark s with
  | none => simp only [scanAux, h1]
  | some gr =>
    obtain ⟨g, rest⟩ := gr
    cases h2 : findSplit endMark rest with
    | none => simp only [scanAux, h1, h2]
    | some ir =>
      obtain ⟨i, rest2⟩ := ir
      exfalso
      rcases hsc : scanAux s.length rest2 with ⟨bs, t⟩
      simp only [scanAux, h1, h2, hsc] at h
      simp at h

theorem joinGaps_middle (bs₁ bs₂ : List (List Char × List Char))
    (g i t : List Char) :
    joinGaps (bs₁ ++ (g, i) :: bs₂) t = joinGaps bs₁ (g ++ joinGaps bs₂ t) := by
  unfold joinGaps
  rw [List.map_append, List.foldr_append]
  rfl

theorem invoke_agent_ok_thread (clock : Nat → Nat) (cap : Capability)
    (uid un msg : String) (t : Option String) (pc : Option Json)
    (r : InvokeResult)
    (h : invoke_agent clock cap uid un msg t pc = Except.ok r) :
    r.thread_id = resolveThreadId t uid := by
  unfold invoke_agent at h
  cases hc : mkInitialContext un pc with
  | error e =>
    simp only [hc] at h
    exact Except.noConfusion h
  | ok ictx =>
    simp only [hc] at h
    cases hg : generate_response clock cap
        ⟨[Msg.human msg], fetch_patient_context ictx⟩ with
    | error e =>
      simp only [hg] at h
      exact Except.noConfusion h
    | ok gen =>
      simp only [hg] at h
      cases h
      rfl

/-- C1 (counterexample).  The claim fails as stated: this reply text has
exactly one delimiter-matched block, its interior is the valid JSON
object `{}`, yet the returned display text still contains the start
marker, because a dangling `**ACTION_START**` after the block survives
`re.sub` untouched. -/
theorem claim1_counterexample :
    scanText "**ACTION_START**\x7b\x7d**ACTION_END**x**ACTION_START**".data =
      ([("".data, "\x7b\x7d".data)], "x**ACTION_START**".data) ∧
    jsonDecode (pyStripL "\x7b\x7d".data) = some (Json.obj []) ∧
    parse_actions_from_response (fun _ => 5)
        "**ACTION_START**\x7b\x7d**ACTION_END**x**ACTION_START**" =
      Except.ok [[("id", Json.str "action-5"), ("status", Json.str "pending"),
        ("priority", Json.str "medium")]] ∧
    remove_action_blocks "**ACTION_START**\x7b\x7d**ACTION_END**x**ACTION_START**" =
      "x**ACTION_START**" ∧
    occursIn startMark
      (remove_action_blocks
        "**ACTION_START**\x7b\x7d**ACTION_END**x**ACTION_START**").data = true :=
  ⟨rfl, rfl, rfl, rfl, rfl⟩

/-- C1 (amended).  For reply text whose delimiter scan yields exactly one
block with a valid JSON object interior, the extractor returns exactly
one action whose `type`/`data`/`description` equal those of the embedded
object, with `status = "pending"` and the synthesized `id`; the display
text is the trimmed concatenation of the text outside the block, and it
contains no start marker, end marker, or embedded JSON *provided* those
strings do not occur in that outside text (the unconditional claim is
refuted by `claim1_counterexample`). -/
theorem claim1_amended_roundtrip (clock : Nat → Nat) (s : String)
    (g i t : List Char) (kvs : Dict)
    (hscan : scanText s.data = ([(g, i)], t))
    (hjson : jsonDecode (pyStripL i) = some (Json.obj kvs)) :
    parse_actions_from_response clock s = Except.ok [buildAction kvs (clock 0)] ∧
    dictGet (buildAction kvs (clock 0)) "type" = dictGet kvs "type" ∧
    dictGet (buildAction kvs (clock 0)) "data" = dictGet kvs "data" ∧
    dictGet (buildAction kvs (clock 0)) "description" = dictGet kvs "description" ∧
    dictGet (buildAction kvs (clock 0)) "status" = some (Json.str "pending") ∧
    dictGet (buildAction kvs (clock 0)) "id" =
      some (Json.str ("action-" ++ toString (clock 0))) ∧
    remove_action_blocks s = ⟨pyStripL (g ++ t)⟩ ∧
    (occursIn startMark (g ++ t) = false →
      occursIn startMark (remove_action_blocks s).data = false) ∧
    (occursIn endMark (g ++ t) = false →
      occursIn endMark (remove_action_blocks s).data = false) ∧
    (occursIn (pyStripL i) (g ++ t) = false →
      occursIn (pyStripL i) (remove_action_blocks s).data = false) := by
  have hrm : remove_action_blocks s = ⟨pyStripL (g ++ t)⟩ := by
    unfold remove_action_blocks
    rw [hscan]
    rfl
  have hp : parse_actions_from_response clock s =
      Except.ok [buildAction kvs (clock 0)] := by
    unfold parse_actions_from_response
    rw [hscan]
    simp only [List.map_cons, List.map_nil, processMatches, hjson]
    rfl
  refine ⟨hp,
    buildAction_keeps kvs (clock 0) "type" (by decide) (by decide) (by decide),
    buildAction_keeps kvs (clock 0) "data" (by decide) (by decide) (by decide),
    buildAction_keeps kvs (clock 0) "description" (by decide) (by decide) (by decide),
    buildAction_status kvs (clock 0),
    buildAction_id kvs (clock 0),
    hrm, ?_, ?_, ?_⟩
  · intro h
    rw [hrm]
    exact occursIn_pyStripL _ _ h
  · intro h
    rw [hrm]
    exact occursIn_pyStripL _ _ h
  · intro h
    rw [hrm]
    exact occursIn_pyStripL _ _ h

/-- C1 (witness for the amended theorem) at a concrete reply text with
one well-formed `CREATE`/`T` block. -/
theorem claim1_amended_roundtrip_witness :
    scanText "Hello **ACTION_START**\x7b\"type\": \"T\"\x7d**ACTION_END** bye".data =
      ([("Hello ".data, "\x7b\"type\": \"T\"\x7d".data)], " bye".data) ∧
    jsonDecode (pyStripL "\x7b\"type\": \"T\"\x7d".data) =
      some (Json.obj [("type", Json.str "T")]) ∧
    parse_actions_from_response (fun _ => 7)
        "Hello **ACTION_START**\x7b\"type\": \"T\"\x7d**ACTION_END** bye" =
      Except.ok [[("type", Json.str "T"), ("id", Json.str "action-7"),
        ("status", Json.str "pending"), ("priority", Json.str "medium")]] ∧
    remove_action_blocks
        "Hello **ACTION_START**\x7b\"type\": \"T\"\x7d**ACTION_END** bye" =
      "Hello  bye" ∧
    occursIn startMark
      (remove_action_blocks
        "Hello **ACTION_START**\x7b\"type\": \"T\"\x7d**ACTION_END** bye").data = false ∧
    occursIn endMark
      (remove_action_blocks
        "Hello **ACTION_START**\x7b\"type\": \"T\"\x7d**ACTION_END** bye").data = false := by
  have h := claim1_amended_roundtrip (fun _ => 7)
    "Hello **ACTION_START**\x7b\"type\": \"T\"\x7d**ACTION_END** bye"
    "Hello ".data "\x7b\"type\": \"T\"\x7d".data " bye".data
    [("type", Json.str "T")] rfl rfl
  obtain ⟨hp, _, _, _, _, _, hrm, hs1, hs2, _⟩ := h
  refine ⟨rfl, rfl, ?_, ?_, hs1 rfl, hs2 rfl⟩
  · rw [hp]
    rfl
  · rw [hrm]
    rfl

/-- C3.  A delimiter-matched region whose interior is not valid JSON
contributes no action (the extraction result is the same as if the
region were absent from the match list) and is still removed from the
display text, which keeps only the gaps and the tail of the scan; the
reconstruction equation exhibits that the input text did contain the
full region. -/
theorem claim3_invalid_json_skipped_still_stripped (clock : Nat → Nat)
    (s : String) (bs₁ bs₂ : List (List Char × List Char)) (g i t : List Char)
    (hscan : scanText s.data = (bs₁ ++ (g, i) :: bs₂, t))
    (hbad : jsonDecode (pyStripL i) = none) :
    s.data = unscan (bs₁ ++ (g, i) :: bs₂) t ∧
    parse_actions_from_response clock s =
      processMatches clock 0 ((bs₁ ++ bs₂).map Prod.snd) ∧
    remove_action_blocks s = ⟨pyStripL (joinGaps bs₁ (g ++ joinGaps bs₂ t))⟩ := by
  refine ⟨?_, ?_, ?_⟩
  · have hu := scanText_unscan s.data
    rw [hscan] at hu
    exact hu.symm
  · unfold parse_actions_from_response
    rw [hscan]
    show processMatches clock 0 ((bs₁ ++ (g, i) :: bs₂).map Prod.snd) = _
    rw [List.map_append, List.map_cons, List.map_append]
    exact processMatches_skip clock i hbad (bs₁.map Prod.snd) 0 (bs₂.map Prod.snd)
  · unfold remove_action_blocks
    simp only [hscan]
    rw [joinGaps_middle]

/-- C3 (witness) at a concrete reply whose single block holds the
unparsable interior `nope`. -/
theorem claim3_witness :
    scanText "a**ACTION_START**nope**ACTION_END**b".data =
      ([("a".data, "nope".data)], "b".data) ∧
    jsonDecode (pyStripL "nope".data) = none ∧
    parse_actions_from_response (fun _ => 0)
      "a**ACTION_START**nope**ACTION_END**b" = Except.ok [] ∧
    remove_action_blocks "a**ACTION_START**nope**ACTION_END**b" = "ab" := by
  have h := claim3_invalid_json_skipped_still_stripped (fun _ => 0)
    "a**ACTION_START**nope**ACTION_END**b" [] [] "a".data "nope".data "b".data
    rfl rfl
  refine ⟨rfl, rfl, h.2.1, ?_⟩
  rw [h.2.2]
  rfl

/-- C7 (code bug).  At the failing input — a reply with two well-formed
blocks both processed during the same millisecond (a constant clock) —
the extractor assigns both actions the identical id
`action-1730000000000`, contradicting the intended per-call uniqueness
(the code comments call it a "unique ID"). -/
theorem claim7_duplicate_ids_at_failing_input :
    parse_actions_from_response (fun _ => 1730000000000)
        "**ACTION_START**\x7b\"type\": \"A\"\x7d**ACTION_END****ACTION_START**\x7b\"type\": \"B\"\x7d**ACTION_END**" =
      Except.ok
        [[("type", Json.str "A"), ("id", Json.str "action-1730000000000"),
          ("status", Json.str "pending"), ("priority", Json.str "medium")],
         [("type", Json.str "B"), ("id", Json.str "action-1730000000000"),
          ("status", Json.str "pending"), ("priority", Json.str "medium")]] ∧
    dictGet [("type", Json.str "A"), ("id", Json.str "action-1730000000000"),
        ("status", Json.str "pending"), ("priority", Json.str "medium")] "id" =
      dictGet [("type", Json.str "B"), ("id", Json.str "action-1730000000000"),
        ("status", Json.str "pending"), ("priority", Json.str "medium")] "id" :=
  ⟨rfl, rfl⟩

/-- C9.  A reply text in which the delimiter scan finds no region yields
an empty action list and a display text equal to the input after
whitespace trimming. -/
theorem claim9_no_blocks_identity (clock : Nat → Nat) (s : String)
    (h : (scanText s.data).1 = []) :
    parse_actions_from_response clock s = Except.ok [] ∧
    remove_action_blocks s = pyStrip s := by
  have hs := scanText_fst_nil s.data h
  constructor
  · unfold parse_actions_from_response
    rw [hs]
    rfl
  · unfold remove_action_blocks
    rw [hs]
    rfl

/-- C9 (witness) at a concrete marker-free reply. -/
theorem claim9_witness :
    (scanText "  hello world ".data).1 = [] ∧
    parse_actions_from_response (fun _ => 0) "  hello world " = Except.ok [] ∧
    remove_action_blocks "  hello world " = "hello world" := by
  have h := claim9_no_blocks_identity (fun _ => 0) "  hello world " rfl
  refine ⟨rfl, h.1, ?_⟩
  rw [h.2]
  rfl

/-- C10.  For a single well-formed block whose embedded object supplies
its own `id` or `status`, the extractor unconditionally overwrites both
(`id` becomes the synthesized time-derived identifier, `status` becomes
"pending"), while a supplied `priority` value is kept. -/
theorem claim10_overwrites_id_status_keeps_priority (clock : Nat → Nat)
    (s : String) (g i t : List Char) (kvs : Dict)
    (hscan : scanText s.data = ([(g, i)], t))
    (hjson : jsonDecode (pyStripL i) = some (Json.obj kvs))
    (_hsupplied : (dictGet kvs "id").isSome = true ∨
      (dictGet kvs "status").isSome = true) :
    parse_actions_from_response clock s = Except.ok [buildAction kvs (clock 0)] ∧
    dictGet (buildAction kvs (clock 0)) "id" =
      some (Json.str ("action-" ++ toString (clock 0))) ∧
    dictGet (buildAction kvs (clock 0)) "status" = some (Json.str "pending") ∧
    (∀ v, dictGet kvs "priority" = some v →
      dictGet (buildAction kvs (clock 0)) "priority" = some v) := by
  refine ⟨?_, buildAction_id kvs (clock 0), buildAction_status kvs (clock 0),
    fun v hv => buildAction_priority_kept kvs (clock 0) v hv⟩
  unfold parse_actions_from_response
  rw [hscan]
  simp only [List.map_cons, List.map_nil, processMatches, hjson]
  rfl

/-- C10 (witness): the embedded object supplies `id`, `status` and
`priority`; the first two are overwritten, the priority survives. -/
theorem claim10_witness :
    scanText "**ACTION_START**\x7b\"id\": \"X\", \"status\": \"done\", \"priority\": \"high\", \"type\": \"T\"\x7d**ACTION_END**".data =
      ([("".data,
         "\x7b\"id\": \"X\", \"status\": \"done\", \"priority\": \"high\", \"type\": \"T\"\x7d".data)],
       "".data) ∧
    parse_actions_from_response (fun _ => 3)
        "**ACTION_START**\x7b\"id\": \"X\", \"status\": \"done\", \"priority\": \"high\", \"type\": \"T\"\x7d**ACTION_END**" =
      Except.ok [[("id", Json.str "action-3"), ("status", Json.str "pending"),
        ("priority", Json.str "high"), ("type", Json.str "T")]] := by
  have h := claim10_overwrites_id_status_keeps_priority (fun _ => 3)
    "**ACTION_START**\x7b\"id\": \"X\", \"status\": \"done\", \"priority\": \"high\", \"type\": \"T\"\x7d**ACTION_END**"
    "".data
    "\x7b\"id\": \"X\", \"status\": \"done\", \"priority\": \"high\", \"type\": \"T\"\x7d".data
    "".data
    [("id", Json.str "X"), ("status", Json.str "done"),
     ("priority", Json.str "high"), ("type", Json.str "T")]
    rfl rfl (Or.inl rfl)
  refine ⟨rfl, ?_⟩
  rw [h.1]
  rfl

/-- C2.  For every state on which the prompt assembly succeeds, and a
completion capability whose invocation fails with error text `e`, the
response-generation stage catches the failure and returns (not raises) a
well-formed result whose response is the apology text built from `str(e)`
and whose action list is empty. -/
theorem claim2_completion_failure_caught (clock : Nat → Nat) (cap : Capability)
    (st : GenState) (e : String)
    (hcap : ∀ msgs, cap msgs = Except.error e)
    (hok : isOkE (buildSystemPrompt st.patient_context) = true) :
    generate_response clock cap st =
      Except.ok ⟨st.messages ++ [Msg.ai (apologyText e)], apologyText e, []⟩ := by
  cases hb : buildSystemPrompt st.patient_context with
  | error e' =>
    rw [hb] at hok
    exact absurd hok (by simp [isOkE])
  | ok sp =>
    unfold generate_response
    simp only [hb]
    rw [hcap (Msg.system sp :: st.messages)]

/-- C2 (witness): a concrete state and an always-failing capability. -/
theorem claim2_witness :
    generate_response (fun _ => 0) (fun _ => Except.error "boom")
        ⟨[Msg.human "hi"], fetch_patient_context []⟩ =
      Except.ok ⟨[Msg.human "hi", Msg.ai (apologyText "boom")],
        apologyText "boom", []⟩ := by
  have h := claim2_completion_failure_caught (fun _ => 0)
    (fun _ => Except.error "boom") ⟨[Msg.human "hi"], fetch_patient_context []⟩
    "boom" (fun _ => rfl) rfl
  exact h

/-- C4.  For every input mapping the Context Normalizer is total and its
output binds each of the seven fields the prompt assembly reads to the
input's value, or to the field's default (`"Doctor"` for `name`, the
empty list for the record fields, the empty mapping for `stats`) when
the field is absent. -/
theorem claim4_normalizer_total_defaults (ctx : Dict) :
    (dictGet (fetch_patient_context ctx) "name" =
        some (dictGetD ctx "name" (Json.str "Doctor")) ∧
      dictGet (fetch_patient_context ctx) "appointments" =
        some (dictGetD ctx "appointments" (Json.arr [])) ∧
      dictGet (fetch_patient_context ctx) "prescriptions" =
        some (dictGetD ctx "prescriptions" (Json.arr [])) ∧
      dictGet (fetch_patient_context ctx) "records" =
        some (dictGetD ctx "records" (Json.arr [])) ∧
      dictGet (fetch_patient_context ctx) "labTests" =
        some (dictGetD ctx "labTests" (Json.arr [])) ∧
      dictGet (fetch_patient_context ctx) "patients" =
        some (dictGetD ctx "patients" (Json.arr [])) ∧
      dictGet (fetch_patient_context ctx) "stats" =
        some (dictGetD ctx "stats" (Json.obj []))) ∧
    (∀ k, k ∈ knownKeys → (dictGet (fetch_patient_context ctx) k).isSome = true) ∧
    (dictGet ctx "name" = none →
      dictGet (fetch_patient_context ctx) "name" = some (Json.str "Doctor")) ∧
    (dictGet ctx "appointments" = none →
      dictGet (fetch_patient_context ctx) "appointments" = some (Json.arr [])) ∧
    (dictGet ctx "prescriptions" = none →
      dictGet (fetch_patient_context ctx) "prescriptions" = some (Json.arr [])) ∧
    (dictGet ctx "records" = none →
      dictGet (fetch_patient_context ctx) "records" = some (Json.arr [])) ∧
    (dictGet ctx "labTests" = none →
      dictGet (fetch_patient_context ctx) "labTests" = some (Json.arr [])) ∧
    (dictGet ctx "patients" = none →
      dictGet (fetch_patient_context ctx) "patients" = some (Json.arr [])) ∧
    (dictGet ctx "stats" = none →
      dictGet (fetch_patient_context ctx) "stats" = some (Json.obj [])) := by
  refine ⟨⟨rfl, rfl, rfl, rfl, rfl, rfl, rfl⟩, ?_, ?_, ?_, ?_, ?_, ?_, ?_, ?_⟩
  · intro k hk
    simp only [knownKeys, List.mem_cons, List.not_mem_nil, or_false] at hk
    rcases hk with rfl | rfl | rfl | rfl | rfl | rfl | rfl <;> rfl
  all_goals
    intro h
    show some (dictGetD ctx _ _) = _
    rw [dictGetD, h]
    rfl

/-- C4 (witness): the empty mapping receives all seven defaults. -/
theorem claim4_witness :
    dictGet (fetch_patient_context []) "name" = some (Json.str "Doctor") ∧
    dictGet (fetch_patient_context []) "appointments" = some (Json.arr []) ∧
    dictGet (fetch_patient_context []) "prescriptions" = some (Json.arr []) ∧
    dictGet (fetch_patient_context []) "records" = some (Json.arr []) ∧
    dictGet (fetch_patient_context []) "labTests" = some (Json.arr []) ∧
    dictGet (fetch_patient_context []) "patients" = some (Json.arr []) ∧
    dictGet (fetch_patient_context []) "stats" = some (Json.obj []) := by
  have h := claim4_normalizer_total_defaults []
  exact ⟨h.2.2.1 rfl, h.2.2.2.1 rfl, h.2.2.2.2.1 rfl, h.2.2.2.2.2.1 rfl,
    h.2.2.2.2.2.2.1 rfl, h.2.2.2.2.2.2.2.1 rfl, h.2.2.2.2.2.2.2.2 rfl⟩

/-- C5 (counterexample).  Invoking the entry point with no positional
arguments at all does not terminate with a usage error: the program
proceeds with the substituted values `unknown`/`Doctor`/`Hello`, reaches
the pipeline, and exits 0. -/
theorem claim5_counterexample :
    run_main (fun _ => 0) (fun _ => Except.ok "Hi") ["run_agent.py"] =
      MainOut.success ⟨"Hi", [], "unknown", "thread-unknown",
        [("name", Json.str "Doctor"), ("appointments", Json.arr []),
         ("prescriptions", Json.arr []), ("records", Json.arr []),
         ("labTests", Json.arr []), ("patients", Json.arr []),
         ("stats", Json.obj [])]⟩ ∧
    exitCodeOf (run_main (fun _ => 0) (fun _ => Except.ok "Hi") ["run_agent.py"]) = 0 :=
  ⟨rfl, rfl⟩

/-- C5 (amended).  A CLI invocation missing the required positional
arguments is not a fatal usage error: the arguments are substituted by
the defaults `unknown`/`Doctor`/`Hello` (no thread id, empty context)
and the run behaves exactly as if those values had been passed
explicitly. -/
theorem claim5_amended_defaults (clock : Nat → Nat) (cap : Capability)
    (argv : List String) (h : argv.length ≤ 1) :
    parsedArgs argv = ("unknown", "Doctor", "Hello", none, "\x7b\x7d") ∧
    run_main clock cap argv =
      run_main clock cap ["run_agent.py", "unknown", "Doctor", "Hello"] := by
  match argv with
  | [] => exact ⟨rfl, rfl⟩
  | [a] => exact ⟨rfl, rfl⟩
  | a :: b :: rest => simp at h

/-- C5 (witness for the amended theorem) at the empty argument vector. -/
theorem claim5_amended_witness :
    parsedArgs [] = ("unknown", "Doctor", "Hello", none, "\x7b\x7d") ∧
    run_main (fun _ => 0) (fun _ => Except.ok "Hi") [] =
      run_main (fun _ => 0) (fun _ => Except.ok "Hi")
        ["run_agent.py", "unknown", "Doctor", "Hello"] :=
  claim5_amended_defaults (fun _ => 0) (fun _ => Except.ok "Hi") [] (by decide)

/-- C6 (counterexample).  A key outside the known set is present in the
input mapping but absent from the Normalizer's output: it is dropped,
not preserved. -/
theorem claim6_counterexample :
    dictGet [("extra", Json.str "x")] "extra" = some (Json.str "x") ∧
    dictGet (fetch_patient_context [("extra", Json.str "x")]) "extra" = none :=
  ⟨rfl, rfl⟩

/-- C6 (amended).  The Normalizer rebuilds the context from scratch:
every key outside the seven known fields is absent from its output. -/
theorem claim6_amended_unknown_dropped (ctx : Dict) (k : String)
    (h : ¬ k ∈ knownKeys) : dictGet (fetch_patient_context ctx) k = none := by
  simp only [knownKeys, List.mem_cons, List.not_mem_nil, or_false, not_or] at h
  obtain ⟨h1, h2, h3, h4, h5, h6, h7⟩ := h
  simp [fetch_patient_context, dictGet, Ne.symm h1, Ne.symm h2, Ne.symm h3,
    Ne.symm h4, Ne.symm h5, Ne.symm h6, Ne.symm h7]

/-- C6 (witness for the amended theorem). -/
theorem claim6_amended_witness :
    ¬ ("extra" : String) ∈ knownKeys ∧
    dictGet (fetch_patient_context [("extra", Json.str "x")]) "extra" = none :=
  ⟨by decide, claim6_amended_unknown_dropped [("extra", Json.str "x")] "extra" (by decide)⟩

/-- C8 (counterexample).  A supplied thread id is not always returned
unchanged: the empty string is falsy in `thread_id or f"thread-{...}"`,
so it is replaced by the derived default. -/
theorem claim8_counterexample :
    invoke_agent (fun _ => 0) (fun _ => Except.ok "Hi") "doc1" "Dr" "hi"
        (some "") none =
      Except.ok ⟨"Hi", [], "doc1", "thread-doc1",
        [("name", Json.str "Dr"), ("appointments", Json.arr []),
         ("prescriptions", Json.arr []), ("records", Json.arr []),
         ("labTests", Json.arr []), ("patients", Json.arr []),
         ("stats", Json.obj [])]⟩ ∧
    ("thread-doc1" : String) ≠ "" :=
  ⟨rfl, by decide⟩

/-- C8 (amended).  Whenever `invoke_agent` returns a result: with no
thread id supplied the returned id is `thread-<callerId>`; two such
invocations with the same caller id return the identical id; and a
supplied *non-empty* thread id is returned unchanged (the empty string
is treated as absent, refuting the unconditional pass-through — see
`claim8_counterexample`). -/
theorem claim8_amended_thread_id (clk₁ clk₂ : Nat → Nat)
    (cap₁ cap₂ : Capability) (uid un₁ un₂ msg₁ msg₂ : String)
    (pc₁ pc₂ : Option Json) (s : String) (r₁ r₂ r₃ : InvokeResult)
    (h₁ : invoke_agent clk₁ cap₁ uid un₁ msg₁ none pc₁ = Except.ok r₁)
    (h₂ : invoke_agent clk₂ cap₂ uid un₂ msg₂ none pc₂ = Except.ok r₂)
    (h₃ : invoke_agent clk₁ cap₁ uid un₁ msg₁ (some s) pc₁ = Except.ok r₃)
    (hs : s ≠ "") :
    r₁.thread_id = "thread-" ++ uid ∧
    r₂.thread_id = r₁.thread_id ∧
    r₃.thread_id = s := by
  have e₁ := invoke_agent_ok_thread _ _ _ _ _ _ _ _ h₁
  have e₂ := invoke_agent_ok_thread _ _ _ _ _ _ _ _ h₂
  have e₃ := invoke_agent_ok_thread _ _ _ _ _ _ _ _ h₃
  refine ⟨?_, ?_, ?_⟩
  · rw [e₁]
    rfl
  · rw [e₂, e₁]
  · rw [e₃]
    show (if s = "" then "thread-" ++ uid else s) = s
    rw [if_neg hs]

/-- C8 (witness for the amended theorem): two concrete default-derived
invocations and one with the non-empty supplied id `T7`. -/
theorem claim8_amended_witness :
    ("T7" : String) ≠ "" ∧
    invoke_agent (fun _ => 0) (fun _ => Except.ok "Hi") "doc1" "Dr" "m" none none =
      Except.ok ⟨"Hi", [], "doc1", "thread-doc1",
        [("name", Json.str "Dr"), ("appointments", Json.arr []),
         ("prescriptions", Json.arr []), ("records", Json.arr []),
         ("labTests", Json.arr []), ("patients", Json.arr []),
         ("stats", Json.obj [])]⟩ ∧
    invoke_agent (fun _ => 0) (fun _ => Except.ok "Hi") "doc1" "Dr" "m"
        (some "T7") none =
      Except.ok ⟨"Hi", [], "doc1", "T7",
        [("name", Json.str "Dr"), ("appointments", Json.arr []),
         ("prescriptions", Json.arr []), ("records", Json.arr []),
         ("labTests", Json.arr []), ("patients", Json.arr []),
         ("stats", Json.obj [])]⟩ ∧
    ("thread-doc1" : String) = "thread-" ++ "doc1" ∧
    ("T7" : String) = "T7" := by
  have h := claim8_amended_thread_id (fun _ => 0) (fun _ => 0)
    (fun _ => Except.ok "Hi") (fun _ => Except.ok "Hi") "doc1" "Dr" "Dr"
    "m" "m" none none "T7" _ _ _ rfl rfl rfl (by decide)
  exact ⟨by decide, rfl, rfl, h.1, h.2.2⟩

end HealthLink
